import Mathlib

/-!
Verification of the trade-lifecycle orchestrator of the telegram-listing
trading bot (`bot/bot.py`, `bot/telegram_listen.py`).

The Python source is shallowly embedded: prices, quantities and amounts are
modelled as exact rationals (`ℚ`), `datetime` instants as integer epoch
seconds (`ℤ`), ISO-format date strings as the decimal rendering of those
epoch seconds, Python dicts keyed by symbol as association lists
(`List (String × _)`), and every broker (Binance) call as an oracle value of
type `Except String _` (`.error e` models the call raising an exception with
text `e`).  Python `int(x)` is truncation toward zero and Python `round` is
round-half-to-even; both are reproduced exactly over `ℚ`.
-/

/- Batteries marks the `Rat` field operations irreducible, which blocks the
elaborator-side evaluation used by `decide` on concrete rational inputs;
restore the ordinary reducibility of these computable definitions. -/
set_option allowUnsafeReducibility true in
attribute [semireducible] Rat.mul Rat.div Rat.inv Rat.add Rat.sub Rat.neg Rat.ofScientific

namespace TelegramListing

/-- Python `int(x)`: truncation toward zero. -/
def pyInt (x : ℚ) : ℤ :=
  if 0 ≤ x then ⌊x⌋ else ⌈x⌉

/-- Python `round(x)`: round half to even (banker's rounding), over exact
rationals. -/
def pyRound (x : ℚ) : ℤ :=
  let f := ⌊x⌋
  let r := x - f
  if r < 1/2 then f
  else if 1/2 < r then f + 1
  else if f % 2 = 0 then f else f + 1

/-- Python `round(x, n)`: round half to even at `n` decimal places. -/
def pyRoundTo (x : ℚ) (n : ℕ) : ℚ :=
  (pyRound (x * 10 ^ n) : ℚ) / 10 ^ n

/-- Number of decimal digits of a step size:
`len(str(step_size).split(chr(46))[-1].rstrip(chr(48)))` in
`calculate_quantity` (bot.py line 439), modelled for step sizes that are
exact decimal fractions (as exchange LOT_SIZE filters are): the least
`k < 20` with `step * 10 ^ k` an integer. -/
def quantityPrecision (step : ℚ) : ℕ :=
  (((List.range 20).filter fun k => (step * 10 ^ k).den = 1)).headD 20

/-- Configuration of `TradingBot.__init__` (bot.py lines 24-30). -/
structure BotConfig where
  trade_amount : ℚ
  profit_target_pct : ℚ
  stop_loss_pct : ℚ
  leverage : ℚ
  max_retry_minutes : ℕ
  max_hold_hours : ℕ
deriving Repr, DecidableEq

/-- The default configuration baked into `TradingBot.__init__`:
TRADE_AMOUNT 1000, PROFIT_TARGET_PCT 15, STOP_LOSS_PCT 2, LEVERAGE 3,
MAX_RETRY_MINUTES 1440 and the hard-coded `max_hold_hours = 2`. -/
def defaultConfig : BotConfig :=
  { trade_amount := 1000
    profit_target_pct := 15
    stop_loss_pct := 2
    leverage := 3
    max_retry_minutes := 1440
    max_hold_hours := 2 }

/-- `TradingBot.calculate_quantity` (bot.py lines 407-475).
`balanceRes` is the USDT balance obtained from `futures_account_balance`
(0 when no USDT asset is listed), `lotRes` the `(stepSize, minQty)` pair of
the LOT_SIZE filter from `futures_exchange_info` (`(0, 0)` when the symbol
or the filter is absent, as the code's defaults); `.error` on either models
the call raising, in which case the function's own handler returns `None`. -/
def calculate_quantity (cfg : BotConfig) (balanceRes : Except String ℚ)
    (lotRes : Except String (ℚ × ℚ)) (price : ℚ) : Option ℚ :=
  match balanceRes, lotRes with
  | .ok usdt_balance, .ok (step_size, min_qty) =>
    let trade_amount := min cfg.trade_amount (usdt_balance * (95/100))
    let quantity := trade_amount * cfg.leverage / price
    let quantity_precision := quantityPrecision step_size
    let q1 : ℚ :=
      if 5000 ≤ trade_amount then (pyInt quantity : ℚ)
      else if 1 ≤ step_size then (pyInt quantity : ℚ)
      else pyRoundTo quantity quantity_precision
    let q2 := if q1 < min_qty then min_qty else q1
    let q3 :=
      if 0 < step_size then
        let snapped := (pyRound (q2 / step_size) : ℚ) * step_size
        if 5000 ≤ trade_amount then (pyInt snapped : ℚ) else snapped
      else q2
    some q3
  | _, _ => Option.none

/-- `TradingBot.get_price_precision` (bot.py lines 477-486). -/
def get_price_precision (price : ℚ) : ℕ :=
  if price ≤ 10 then 4
  else if price ≤ 100 then 3
  else if price ≤ 1000 then 2
  else 1

/-- A record of `trades.json`, the Ledger.  The Python code stores free-form
dicts; the union of the keys written by `execute_trade` (BUY/ACTIVE
records, bot.py lines 116-130), `retry_scheduler` (lines 537-552),
`monitor_active_trades` (SELL/CLOSED records, lines 362-378) and the patch
of `update_trade_status_to_closed` (lines 628-630) is modelled as one
structure with optional fields for the keys not present in every record. -/
structure Trade where
  trade_id : String
  symbol : String
  action : String
  status : String
  entry_time : String
  entry_price : ℚ
  quantity : ℚ
  leverage : ℚ
  original_message : String
  stop_loss_price : Option ℚ := Option.none
  take_profit_price : Option ℚ := Option.none
  trade_amount : Option ℚ := Option.none
  max_hold_until : Option String := Option.none
  retry_attempt : Option ℕ := Option.none
  exit_time : Option String := Option.none
  exit_price : Option ℚ := Option.none
  exit_reason : Option String := Option.none
  pnl_percentage : Option ℚ := Option.none
  pnl_amount : Option ℚ := Option.none
  hold_duration_minutes : Option ℤ := Option.none
deriving Repr, DecidableEq

/-- One entry of the in-memory `self.active_trades` dict (bot.py
lines 104-113). -/
structure ActiveInfo where
  entry_time : ℤ
  entry_price : ℚ
  quantity : ℚ
  stop_loss_price : ℚ
  take_profit_price : ℚ
  original_message : String
  stop_loss_order_id : Option ℕ := Option.none
  take_profit_order_id : Option ℕ := Option.none
deriving Repr, DecidableEq

/-- One entry of the in-memory `self.retry_attempts` dict (bot.py
lines 167-171). -/
structure RetryInfo where
  attempts : ℕ
  last_attempt : ℤ
  original_message : String
deriving Repr, DecidableEq

/-- The orchestrator state: the persisted `trades.json` ledger plus the two
in-memory maps owned by `TradingBot`. -/
structure BotState where
  ledger : List Trade
  active_trades : List (String × ActiveInfo)
  retry_attempts : List (String × RetryInfo)
deriving Repr, DecidableEq

/-- Condition of the `trades.json` file on disk: present with parseable
content, absent, or unreadable/unparseable. -/
inductive LedgerFile where
  | stored (trades : List Trade)
  | missing
  | corrupt
deriving Repr, DecidableEq

/-- `TradingBot.load_trades_log` (bot.py lines 52-61): a missing file and a
read or JSON-decode exception both yield the empty list. -/
def load_trades_log : LedgerFile → List Trade
  | .stored trades => trades
  | .missing => []
  | .corrupt => []

/-- `TradingBot.has_active_trade` (bot.py lines 603-614): scan the loaded
trades most-recent-first for a record with status ACTIVE. -/
def has_active_trade (trades : List Trade) : Bool :=
  trades.reverse.any fun t => t.status == "ACTIVE"

/-- Python-dict insertion `m[k] = v`: overwrite in place when the key
exists, else append (Python dicts preserve insertion order). -/
def dictInsert {α : Type} (k : String) (v : α) (m : List (String × α)) :
    List (String × α) :=
  if m.any (fun p => p.1 == k) then
    m.map fun p => if p.1 == k then (k, v) else p
  else m ++ [(k, v)]

deriving instance DecidableEq for Except

/-- Broker-call outcomes consumed by one `place_long_trade` run, in the
order the calls occur (bot.py lines 180-277): the initial
`get_symbol_ticker`, the inputs of `calculate_quantity`, whether
`futures_change_leverage` succeeds (best-effort, non-fatal), the market
buy, the fill-price re-fetch by a second `get_symbol_ticker`, the
STOP_MARKET order and the LIMIT take-profit order. -/
structure Broker where
  ticker1 : Except String ℚ
  balance : Except String ℚ
  lot : Except String (ℚ × ℚ)
  leverage_ok : Bool
  market_order : Except String ℕ
  ticker2 : Except String ℚ
  stop_order : Except String ℕ
  tp_order : Except String ℕ
deriving Repr, DecidableEq

/-- The fields of the success dict returned by `place_long_trade`
(bot.py lines 264-272). -/
structure FilledTrade where
  entry_price : ℚ
  quantity : ℚ
  stop_loss_price : ℚ
  take_profit_price : ℚ
  stop_loss_order_id : ℕ
  take_profit_order_id : ℕ
deriving Repr, DecidableEq

/-- Return value of `place_long_trade`: either the success dict or the
failure dict, which carries nothing but an error message string. -/
inductive PlaceResult where
  | ok (t : FilledTrade)
  | err (msg : String)
deriving Repr, DecidableEq

/-- `TradingBot.place_long_trade` (bot.py lines 180-277).  Steps: quote the
symbol (its own handler, distinct message), size the quantity (`None` or a
falsy `0` quantity abort), best-effort leverage, market buy, fill-price
re-fetch, stop-loss and take-profit prices rounded by
`get_price_precision`, STOP_MARKET order, LIMIT GTC order.  Every
exception from the market order onward is caught by the one outer handler
and becomes the same failure dict. -/
def place_long_trade (cfg : BotConfig) (b : Broker) (symbol : String) :
    PlaceResult :=
  match b.ticker1 with
  | .error e =>
    .err ("Symbol " ++ symbol ++ " not found or not tradeable: " ++ e)
  | .ok current_price =>
    match calculate_quantity cfg b.balance b.lot current_price with
    | Option.none => .err ("Could not calculate quantity for " ++ symbol)
    | some quantity =>
      if quantity = 0 then
        .err ("Could not calculate quantity for " ++ symbol)
      else
        match b.market_order with
        | .error e => .err ("Error placing trade for " ++ symbol ++ ": " ++ e)
        | .ok _ =>
          match b.ticker2 with
          | .error e =>
            .err ("Error placing trade for " ++ symbol ++ ": " ++ e)
          | .ok fill_price =>
            let precision := get_price_precision fill_price
            let stop_loss_price :=
              pyRoundTo (fill_price * (1 - cfg.stop_loss_pct / 100)) precision
            let take_profit_price :=
              pyRoundTo (fill_price * (1 + cfg.profit_target_pct / 100)) precision
            match b.stop_order with
            | .error e =>
              .err ("Error placing trade for " ++ symbol ++ ": " ++ e)
            | .ok sl_id =>
              match b.tp_order with
              | .error e =>
                .err ("Error placing trade for " ++ symbol ++ ": " ++ e)
              | .ok tp_id =>
                .ok { entry_price := fill_price
                      quantity := quantity
                      stop_loss_price := stop_loss_price
                      take_profit_price := take_profit_price
                      stop_loss_order_id := sl_id
                      take_profit_order_id := tp_id }

/-- Whether a `place_long_trade` run against broker `b` reaches and
completes the market buy at bot.py line 208, i.e. ends with an open
position: the quote, the sizing and the market order all succeed.  This is
a fact about the broker interaction, not recorded anywhere in the returned
dict. -/
def market_order_filled (cfg : BotConfig) (b : Broker) : Bool :=
  match b.ticker1 with
  | .error _ => false
  | .ok current_price =>
    match calculate_quantity cfg b.balance b.lot current_price with
    | Option.none => false
    | some quantity =>
      if quantity = 0 then false
      else
        match b.market_order with
        | .error _ => false
        | .ok _ => true

/-- The BUY/ACTIVE ledger record written by `execute_trade` on a successful
entry (bot.py lines 116-130).  ISO date strings are rendered as the decimal
form of the epoch-second instant. -/
def makeBuyTrade (cfg : BotConfig) (now : ℤ) (symbol msg : String)
    (t : FilledTrade) : Trade :=
  { trade_id := symbol ++ "_" ++ toString now
    symbol := symbol
    action := "BUY"
    status := "ACTIVE"
    entry_time := toString now
    entry_price := t.entry_price
    quantity := t.quantity
    leverage := cfg.leverage
    original_message := msg
    stop_loss_price := some t.stop_loss_price
    take_profit_price := some t.take_profit_price
    trade_amount := some cfg.trade_amount
    max_hold_until := some (toString (now + (cfg.max_hold_hours : ℤ) * 3600)) }

/-- The `self.active_trades[symbol]` entry created on a successful entry
(bot.py lines 104-113 and 525-534). -/
def mkActiveInfo (now : ℤ) (t : FilledTrade) (msg : String) : ActiveInfo :=
  { entry_time := now
    entry_price := t.entry_price
    quantity := t.quantity
    stop_loss_price := t.stop_loss_price
    take_profit_price := t.take_profit_price
    original_message := msg
    stop_loss_order_id := some t.stop_loss_order_id
    take_profit_order_id := some t.take_profit_order_id }

/-- `TradingBot.execute_trade` (bot.py lines 92-178), given the outcome
`res` of its `place_long_trade` call.  Success registers the trade in
`active_trades`, appends an ACTIVE record to the ledger and drops the
symbol from the retry list if present; failure registers the symbol in
`retry_attempts` with `attempts = 1`. -/
def execute_trade (cfg : BotConfig) (now : ℤ) (symbol msg : String)
    (res : PlaceResult) (st : BotState) : BotState :=
  match res with
  | .ok t =>
    { ledger := st.ledger ++ [makeBuyTrade cfg now symbol msg t]
      active_trades := dictInsert symbol (mkActiveInfo now t msg) st.active_trades
      retry_attempts := st.retry_attempts.filter fun p => p.1 != symbol }
  | .err _ =>
    { st with
      retry_attempts :=
        dictInsert symbol { attempts := 1, last_attempt := now,
                            original_message := msg } st.retry_attempts }

/-- The signal entry point: `TelegramListener.process_message` after symbol
extraction (telegram_listen.py lines 139-168).  If `has_active_trade`
reports an ACTIVE ledger record the message is ignored outright; otherwise
the extracted symbol goes to `execute_trade`, whose `place_long_trade`
outcome is `res`. -/
def handleSignal (cfg : BotConfig) (now : ℤ) (symbol msg : String)
    (res : PlaceResult) (st : BotState) : BotState :=
  if has_active_trade st.ledger then st
  else execute_trade cfg now symbol msg res st

/-- What `process_message` decides to do with an extracted symbol. -/
inductive SignalAction where
  | ignored
  | execute
deriving Repr, DecidableEq

/-- The `has_active_trade` guard of `process_message`
(telegram_listen.py lines 139-154) as a decision on the ledger file. -/
def signalDecision (file : LedgerFile) : SignalAction :=
  if has_active_trade (load_trades_log file) then .ignored else .execute

/-- Helper of `update_trade_status_to_closed`: patch the most recent (last)
record with the given symbol, status ACTIVE and action BUY, scanning from
the end as the Python `reversed` loop does; `Option.none` when no record
matches. -/
def updateClosedAux (symbol exit_reason exit_time : String) :
    List Trade → Option (List Trade)
  | [] => Option.none
  | t :: ts =>
    match updateClosedAux symbol exit_reason exit_time ts with
    | some ts2 => some (t :: ts2)
    | Option.none =>
      if t.symbol = symbol ∧ t.status = "ACTIVE" ∧ t.action = "BUY" then
        some ({ t with status := "CLOSED"
                       exit_time := some exit_time
                       exit_reason := some exit_reason } :: ts)
      else Option.none

/-- `TradingBot.update_trade_status_to_closed` (bot.py lines 616-661):
returns the `updated` flag and the ledger contents after the call — the
file is rewritten only when a record was patched, so on `false` the stored
list is unchanged. -/
def update_trade_status_to_closed (trades : List Trade)
    (symbol exit_reason exit_time : String) : Bool × List Trade :=
  match updateClosedAux symbol exit_reason exit_time trades with
  | some ts2 => (true, ts2)
  | Option.none => (false, trades)

/-- Broker-call outcomes consumed by one `close_position_at_market` run
(bot.py lines 279-326): the `futures_position_information` lookup (the
signed `positionAmt` for the symbol, 0 when the symbol is not listed),
whether `futures_cancel_all_open_orders` succeeds (best-effort), the
closing market order and the exit-price `get_symbol_ticker`. -/
structure CloseBroker where
  position_info : Except String ℚ
  cancel_ok : Bool
  close_order : Except String ℕ
  ticker : Except String ℚ
deriving Repr, DecidableEq

/-- The dict returned by a successful `close_position_at_market`
(bot.py lines 315-320). -/
structure CloseInfo where
  exit_price : ℚ
  quantity : ℚ
  reason : String
  order_id : ℕ
deriving Repr, DecidableEq

/-- `TradingBot.close_position_at_market` (bot.py lines 279-326): `None`
both when the broker reports a flat (zero) position and when any of the
calls raises; the closing order is only submitted for a nonzero position. -/
def close_position_at_market (b : CloseBroker) (reason : String) :
    Option CloseInfo :=
  match b.position_info with
  | .error _ => Option.none
  | .ok position_amt =>
    if position_amt = 0 then Option.none
    else
      match b.close_order with
      | .error _ => Option.none
      | .ok oid =>
        match b.ticker with
        | .error _ => Option.none
        | .ok exit_price =>
          some { exit_price := exit_price
                 quantity := |position_amt|
                 reason := reason
                 order_id := oid }

/-- Whether a `close_position_at_market` run against broker `b` reaches the
closing `futures_create_order` call at bot.py line 303: the position
lookup succeeded and reported a nonzero size. -/
def close_order_attempted (b : CloseBroker) : Bool :=
  match b.position_info with
  | .error _ => false
  | .ok position_amt => position_amt != 0

/-- Symbols selected for force-closing by one `monitor_active_trades` cycle
(bot.py lines 334-344): every active symbol whose elapsed time since entry
is at least `max_hold_hours * 3600` seconds. -/
def monitorSelect (cfg : BotConfig) (now : ℤ)
    (active : List (String × ActiveInfo)) : List String :=
  ((active.filter fun p =>
      decide ((cfg.max_hold_hours : ℤ) * 3600 ≤ now - p.2.entry_time))).map
    Prod.fst

/-- Effect of the close phase of `monitor_active_trades` for one selected
symbol (bot.py lines 347-400): when `close_position_at_market` returned a
result, append the SELL/CLOSED record and patch the original BUY record
via `update_trade_status_to_closed`; in every case delete the symbol from
`active_trades`. -/
def monitor_close_symbol (cfg : BotConfig) (now : ℤ) (symbol : String)
    (info : ActiveInfo) (close_result : Option CloseInfo) (st : BotState) :
    BotState :=
  let st2 :=
    match close_result with
    | Option.none => st
    | some c =>
      let pnl_pct := (c.exit_price - info.entry_price) / info.entry_price * 100
      let pnl_amount := (c.exit_price - info.entry_price) * c.quantity
      let sell : Trade :=
        { trade_id := symbol ++ "_" ++ toString info.entry_time
          symbol := symbol
          action := "SELL"
          status := "CLOSED"
          entry_time := toString info.entry_time
          entry_price := info.entry_price
          quantity := c.quantity
          leverage := cfg.leverage
          original_message := info.original_message
          exit_time := some (toString now)
          exit_price := some c.exit_price
          exit_reason := some "MAX_HOLD_TIME"
          pnl_percentage := some (pyRoundTo pnl_pct 2)
          pnl_amount := some (pyRoundTo pnl_amount 2)
          hold_duration_minutes :=
            some (pyInt (((now - info.entry_time : ℤ) : ℚ) / 60)) }
      { st with
        ledger :=
          (update_trade_status_to_closed (st.ledger ++ [sell]) symbol
            "MAX_HOLD_TIME" (toString now)).2 }
  { st2 with
    active_trades := st2.active_trades.filter fun p => p.1 != symbol }

/-- One pass of the `monitor_active_trades` loop body (bot.py
lines 334-400): select the symbols past the hold limit, then close each in
turn; `closeRes` gives the `close_position_at_market` outcome per symbol. -/
def monitor_cycle (cfg : BotConfig) (now : ℤ)
    (closeRes : String → Option CloseInfo) (st : BotState) : BotState :=
  (monitorSelect cfg now st.active_trades).foldl
    (fun acc symbol =>
      match acc.active_trades.find? (fun p => p.1 == symbol) with
      | Option.none => acc
      | some p => monitor_close_symbol cfg now symbol p.2 (closeRes symbol) acc)
    st

/-- Effect of one symbol of the `check_trade_completion_status` loop body
(bot.py lines 678-699): query the broker position; on an exception skip;
on a flat (zero) position mark the ledger record CLOSED with reason
TARGET_OR_STOPLOSS_HIT and drop the symbol from `active_trades`. -/
def reconcile_step (positions : String → Except String ℚ) (nowStr : String)
    (acc : BotState) (symbol : String) : BotState :=
  match positions symbol with
  | .error _ => acc
  | .ok position_amt =>
    if position_amt = 0 then
      { ledger :=
          (update_trade_status_to_closed acc.ledger symbol
            "TARGET_OR_STOPLOSS_HIT" nowStr).2
        active_trades := acc.active_trades.filter fun p => p.1 != symbol
        retry_attempts := acc.retry_attempts }
    else acc

/-- One pass of the `check_trade_completion_status` loop body (bot.py
lines 669-699): scan the ledger for ACTIVE records (skipping records with
an empty symbol, the falsy `if not symbol` guard) and reconcile each. -/
def check_trade_completion_status (now : ℤ)
    (positions : String → Except String ℚ) (st : BotState) : BotState :=
  (((st.ledger.filter fun t => t.status == "ACTIVE").map fun t =>
      t.symbol).filter fun s => s != "").foldl
    (reconcile_step positions (toString now)) st

/-- Whether a pending retry has exceeded the retry window at instant `now`
(bot.py lines 503-505): `time_elapsed.total_seconds() / 60` at least
`max_retry_minutes`, i.e. elapsed seconds at least `60 * max_retry_minutes`. -/
def retryExpired (cfg : BotConfig) (now : ℤ) (i : RetryInfo) : Bool :=
  decide ((cfg.max_retry_minutes : ℤ) * 60 ≤ now - i.last_attempt)

/-- The ACTIVE ledger record written for a successful retry (bot.py
lines 537-552): the entry record plus the `retry_attempt` tag. -/
def makeRetryTrade (cfg : BotConfig) (now : ℤ) (symbol msg : String)
    (t : FilledTrade) (attempts : ℕ) : Trade :=
  { makeBuyTrade cfg now symbol msg t with retry_attempt := some (attempts + 1) }

/-- One pass of the `retry_scheduler` loop body (bot.py lines 498-595).
For each pending symbol, in order: if expired, drop it with no attempt;
otherwise re-run `place_long_trade` (outcome given by the `attempt`
oracle); on success append the tagged ACTIVE record, insert into
`active_trades` and drop the symbol; on failure increment `attempts` and
set `last_attempt` to the cycle instant, keeping the symbol pending.
There is no `has_active_trade` guard on this path. -/
def retry_cycle (cfg : BotConfig) (now : ℤ)
    (attempt : String → String → PlaceResult) (st : BotState) : BotState :=
  { ledger :=
      st.ledger ++ st.retry_attempts.filterMap fun p =>
        if retryExpired cfg now p.2 then Option.none
        else
          match attempt p.1 p.2.original_message with
          | .ok t =>
            some (makeRetryTrade cfg now p.1 p.2.original_message t p.2.attempts)
          | .err _ => Option.none
    active_trades :=
      st.retry_attempts.foldl
        (fun m p =>
          if retryExpired cfg now p.2 then m
          else
            match attempt p.1 p.2.original_message with
            | .ok t => dictInsert p.1 (mkActiveInfo now t p.2.original_message) m
            | .err _ => m)
        st.active_trades
    retry_attempts :=
      st.retry_attempts.filterMap fun p =>
        if retryExpired cfg now p.2 then Option.none
        else
          match attempt p.1 p.2.original_message with
          | .ok _ => Option.none
          | .err _ =>
            some (p.1, { p.2 with attempts := p.2.attempts + 1,
                                  last_attempt := now }) }

/-- States the orchestrator can reach from a fresh start (empty ledger file
and empty in-memory maps) through the code paths of the system: a signal
received by `process_message` (whose `place_long_trade` outcome is `res`),
one cycle of the retry scheduler, of the position monitor or of the
completion reconciler.  Broker outcomes and instants are arbitrary. -/
inductive Reachable (cfg : BotConfig) : BotState → Prop where
  | init : Reachable cfg { ledger := [], active_trades := [], retry_attempts := [] }
  | signal (now : ℤ) (symbol msg : String) (res : PlaceResult) {st : BotState} :
      Reachable cfg st → Reachable cfg (handleSignal cfg now symbol msg res st)
  | retry (now : ℤ) (attempt : String → String → PlaceResult) {st : BotState} :
      Reachable cfg st → Reachable cfg (retry_cycle cfg now attempt st)
  | monitor (now : ℤ) (closeRes : String → Option CloseInfo) {st : BotState} :
      Reachable cfg st → Reachable cfg (monitor_cycle cfg now closeRes st)
  | reconcile (now : ℤ) (positions : String → Except String ℚ) {st : BotState} :
      Reachable cfg st →
      Reachable cfg (check_trade_completion_status now positions st)

/-! ## Helper lemmas -/

/-- Half-even rounding never goes below the floor. -/
theorem pyRound_ge_floor (x : ℚ) : ⌊x⌋ ≤ pyRound x := by
  simp only [pyRound]
  split_ifs <;> omega

/-- Any integer lower bound of the argument bounds the half-even rounding. -/
theorem int_le_pyRound (k : ℤ) (x : ℚ) (h : (k : ℚ) ≤ x) : k ≤ pyRound x :=
  le_trans (Int.le_floor.mpr h) (pyRound_ge_floor x)

/-- In an association list with pairwise-distinct keys, a key determines its
value. -/
theorem keyUnique {α : Type} {l : List (String × α)}
    (hnodup : (l.map Prod.fst).Nodup) {a : String} {b c : α}
    (hb : (a, b) ∈ l) (hc : (a, c) ∈ l) : b = c := by
  induction l with
  | nil => cases hb
  | cons p ts ih =>
    simp only [List.map_cons, List.nodup_cons, List.mem_map] at hnodup
    rcases List.mem_cons.mp hb with hb1 | hb1 <;>
      rcases List.mem_cons.mp hc with hc1 | hc1
    · rw [← hb1] at hc1
      exact congrArg Prod.snd hc1.symm
    · exact absurd ⟨(a, c), hc1, by rw [← hb1]⟩ hnodup.1
    · exact absurd ⟨(a, b), hb1, by rw [← hc1]⟩ hnodup.1
    · exact ih hnodup.2 hb1 hc1

/-- The symbol field of a retry ledger record is the retried symbol. -/
theorem makeRetryTrade_symbol (cfg : BotConfig) (now : ℤ) (symbol msg : String)
    (t : FilledTrade) (attempts : ℕ) :
    (makeRetryTrade cfg now symbol msg t attempts).symbol = symbol := rfl

/-- When no record of the ledger matches the symbol as ACTIVE and BUY, the
reversed-scan patch helper finds nothing. -/
theorem updateClosedAux_eq_none (symbol exit_reason exit_time : String)
    (trades : List Trade)
    (h : ∀ t ∈ trades, ¬(t.symbol = symbol ∧ t.status = "ACTIVE" ∧ t.action = "BUY")) :
    updateClosedAux symbol exit_reason exit_time trades = Option.none := by
  induction trades with
  | nil => rfl
  | cons t ts ih =>
    have hts : updateClosedAux symbol exit_reason exit_time ts = Option.none :=
      ih fun u hu => h u (List.mem_cons_of_mem t hu)
    unfold updateClosedAux
    rw [hts]
    simp only [if_neg (h t (List.mem_cons_self t ts))]

/-! ## Claim theorems -/

/-- C9: if reading the ledger file fails for any reason (missing file or
unreadable/unparseable content), `load_trades_log` returns the empty
collection, `has_active_trade` returns false, and a signal arriving in
that state proceeds to entry placement regardless of what the last
successfully persisted ledger contained. -/
theorem C9_ledger_read_failure_proceeds (f : LedgerFile)
    (h : f = LedgerFile.missing ∨ f = LedgerFile.corrupt) :
    load_trades_log f = [] ∧
    has_active_trade (load_trades_log f) = false ∧
    signalDecision f = SignalAction.execute := by
  rcases h with h | h <;> subst h <;> exact ⟨rfl, rfl, rfl⟩

/-- Witness for C9 at the concrete missing-file state. -/
theorem C9_witness :
    (LedgerFile.missing = LedgerFile.missing ∨
      LedgerFile.missing = LedgerFile.corrupt) ∧
    (load_trades_log LedgerFile.missing = [] ∧
      has_active_trade (load_trades_log LedgerFile.missing) = false ∧
      signalDecision LedgerFile.missing = SignalAction.execute) :=
  ⟨Or.inl rfl, C9_ledger_read_failure_proceeds LedgerFile.missing (Or.inl rfl)⟩

/-- C6: with the hard-coded `maxHoldHours = 2`, the position monitor selects
a symbol for force-closing exactly when the elapsed time since its entry is
at least 2 hours (7200 seconds): never before, and any trade held past the
threshold is selected on the cycle. -/
theorem C6_max_hold_selection (now : ℤ) (active : List (String × ActiveInfo))
    (symbol : String) :
    symbol ∈ monitorSelect defaultConfig now active ↔
      ∃ info, (symbol, info) ∈ active ∧ (7200 : ℤ) ≤ now - info.entry_time := by
  unfold monitorSelect
  simp only [List.mem_map, List.mem_filter, decide_eq_true_eq]
  constructor
  · rintro ⟨⟨s, info⟩, ⟨hmem, hcond⟩, rfl⟩
    refine ⟨info, hmem, ?_⟩
    norm_num [defaultConfig] at hcond
    exact hcond
  · rintro ⟨info, hmem, hcond⟩
    refine ⟨(symbol, info), ⟨hmem, ?_⟩, rfl⟩
    norm_num [defaultConfig]
    exact hcond

/-- Witness for C6: a trade entered at instant 0 is selected at 7200. -/
theorem C6_witness :
    "XUSDT" ∈ monitorSelect defaultConfig 7200
      [("XUSDT", { entry_time := 0, entry_price := 1, quantity := 1,
                   stop_loss_price := 1, take_profit_price := 1,
                   original_message := "m" })] :=
  (C6_max_hold_selection 7200 _ "XUSDT").mpr
    ⟨_, List.mem_singleton.mpr rfl, by decide⟩

/-- C10: when the monitor has selected a symbol and
`close_position_at_market` returns `None` (broker error or already-flat
position), the symbol is still deleted from `active_trades` — as it is on
any close outcome — while the ledger is left untouched (so an ACTIVE
record stays ACTIVE), and no later monitor cycle can select the symbol
again from the resulting map. -/
theorem C10_failed_close_drops_symbol (cfg : BotConfig) (now : ℤ)
    (symbol : String) (info : ActiveInfo) (st : BotState) :
    (monitor_close_symbol cfg now symbol info Option.none st).ledger = st.ledger ∧
    (∀ cr, symbol ∉
      ((monitor_close_symbol cfg now symbol info cr st).active_trades.map Prod.fst)) ∧
    (∀ now2 : ℤ, symbol ∉
      monitorSelect cfg now2
        (monitor_close_symbol cfg now symbol info Option.none st).active_trades) := by
  refine ⟨rfl, ?_, ?_⟩
  · intro cr h
    simp only [monitor_close_symbol, List.mem_map, List.mem_filter, bne_iff_ne,
      ne_eq] at h
    obtain ⟨p, ⟨_, hne⟩, heq⟩ := h
    exact hne heq
  · intro now2 h
    simp only [monitor_close_symbol, monitorSelect, List.mem_map,
      List.mem_filter, bne_iff_ne, ne_eq] at h
    obtain ⟨p, ⟨⟨_, hne⟩, _⟩, heq⟩ := h
    exact hne heq

/-- C5: a second close of the same trade is a no-op.  If the broker already
reports a flat position, `close_position_at_market` returns `None` without
reaching the closing order; if the ledger record is already CLOSED (no
ACTIVE BUY record for the symbol), `update_trade_status_to_closed` reports
no update and the stored ledger is unchanged — hence both the monitor's
close phase on a `None` result and the reconciler's step mutate nothing in
the ledger and submit no order. -/
theorem C5_double_close_idempotent (b : CloseBroker) (reason : String)
    (cfg : BotConfig) (now : ℤ) (info : ActiveInfo) (st : BotState)
    (symbol exitReason nowStr : String) (positions : String → Except String ℚ)
    (hflat : b.position_info = Except.ok 0)
    (hpos : positions symbol = Except.ok 0)
    (hclosed : ∀ t ∈ st.ledger,
      ¬(t.symbol = symbol ∧ t.status = "ACTIVE" ∧ t.action = "BUY")) :
    close_position_at_market b reason = Option.none ∧
    close_order_attempted b = false ∧
    update_trade_status_to_closed st.ledger symbol exitReason nowStr =
      (false, st.ledger) ∧
    (monitor_close_symbol cfg now symbol info Option.none st).ledger = st.ledger ∧
    (reconcile_step positions nowStr st symbol).ledger = st.ledger := by
  have hupd : ∀ r m : String,
      update_trade_status_to_closed st.ledger symbol r m = (false, st.ledger) := by
    intro r m
    unfold update_trade_status_to_closed
    rw [updateClosedAux_eq_none symbol r m st.ledger hclosed]
  refine ⟨?_, ?_, hupd _ _, rfl, ?_⟩
  · unfold close_position_at_market
    rw [hflat]
    simp
  · unfold close_order_attempted
    rw [hflat]
    simp
  · unfold reconcile_step
    rw [hpos]
    dsimp only
    rw [if_pos rfl, hupd]

/-- C7: on every successful entry, with the configured `stopPct = 2` and
`targetPct = 15`, the returned entry price is the re-fetched fill price P,
the stop-loss price is `0.98 P` and the take-profit price is `1.15 P`,
each rounded half-even at the precision tier selected from P:
4 decimals for P up to 10, 3 up to 100, 2 up to 1000, else 1. -/
theorem C7_protective_prices (cfg : BotConfig) (b : Broker) (symbol : String)
    (t : FilledTrade) (P : ℚ)
    (hsl : cfg.stop_loss_pct = 2) (htp : cfg.profit_target_pct = 15)
    (hok : place_long_trade cfg b symbol = PlaceResult.ok t)
    (hfill : b.ticker2 = Except.ok P) :
    t.entry_price = P ∧
    t.stop_loss_price = pyRoundTo ((98 / 100) * P) (get_price_precision P) ∧
    t.take_profit_price = pyRoundTo ((115 / 100) * P) (get_price_precision P) ∧
    P * (1 - 2 / 100) = (98 / 100) * P ∧
    P * (1 + 15 / 100) = (115 / 100) * P ∧
    (P ≤ 10 → get_price_precision P = 4) ∧
    (10 < P → P ≤ 100 → get_price_precision P = 3) ∧
    (100 < P → P ≤ 1000 → get_price_precision P = 2) ∧
    (1000 < P → get_price_precision P = 1) := by
  unfold place_long_trade at hok
  rcases h1 : b.ticker1 with e1 | current_price <;> rw [h1] at hok <;>
    dsimp only at hok
  · exact absurd hok (by simp)
  rcases h2 : calculate_quantity cfg b.balance b.lot current_price with _ | q <;>
    rw [h2] at hok <;> dsimp only at hok
  · exact absurd hok (by simp)
  by_cases hq : q = 0
  · rw [if_pos hq] at hok
    exact absurd hok (by simp)
  rw [if_neg hq] at hok
  rcases h3 : b.market_order with e3 | oid <;> rw [h3] at hok <;>
    dsimp only at hok
  · exact absurd hok (by simp)
  rw [hfill] at hok
  dsimp only at hok
  rcases h4 : b.stop_order with e4 | sl <;> rw [h4] at hok <;>
    dsimp only at hok
  · exact absurd hok (by simp)
  rcases h5 : b.tp_order with e5 | tp <;> rw [h5] at hok <;>
    dsimp only at hok
  · exact absurd hok (by simp)
  injection hok with hok
  subst hok
  refine ⟨rfl, ?_, ?_, by ring, by ring, ?_, ?_, ?_, ?_⟩
  · show pyRoundTo (P * (1 - cfg.stop_loss_pct / 100)) _ = _
    rw [hsl]
    congr 1
    ring
  · show pyRoundTo (P * (1 + cfg.profit_target_pct / 100)) _ = _
    rw [htp]
    congr 1
    ring
  · intro h
    unfold get_price_precision
    rw [if_pos h]
  · intro h h2
    unfold get_price_precision
    rw [if_neg (not_le.mpr h), if_pos h2]
  · intro h h2
    unfold get_price_precision
    rw [if_neg (by linarith), if_neg (not_le.mpr h), if_pos h2]
  · intro h
    unfold get_price_precision
    rw [if_neg (by linarith), if_neg (by linarith), if_neg (not_le.mpr h)]

/-- Broker interaction in which every call of `place_long_trade` succeeds,
quoting a price of 5. -/
def c7Broker : Broker :=
  { ticker1 := Except.ok 5
    balance := Except.ok 1000
    lot := Except.ok (1, 1)
    leverage_ok := true
    market_order := Except.ok 1
    ticker2 := Except.ok 5
    stop_order := Except.ok 2
    tp_order := Except.ok 3 }

/-- The successful trade returned by `place_long_trade` against
`c7Broker`: 570 units at fill price 5, stop 4.9, target 5.75. -/
def c7Fill : FilledTrade :=
  { entry_price := 5
    quantity := 570
    stop_loss_price := 49 / 10
    take_profit_price := 23 / 4
    stop_loss_order_id := 2
    take_profit_order_id := 3 }

/-- Witness for C7 at the concrete all-success broker. -/
theorem C7_witness :
    defaultConfig.stop_loss_pct = 2 ∧
    defaultConfig.profit_target_pct = 15 ∧
    place_long_trade defaultConfig c7Broker "XUSDT" = PlaceResult.ok c7Fill ∧
    c7Broker.ticker2 = Except.ok 5 ∧
    (c7Fill.entry_price = 5 ∧
      c7Fill.stop_loss_price = pyRoundTo ((98 / 100) * 5) (get_price_precision 5) ∧
      c7Fill.take_profit_price = pyRoundTo ((115 / 100) * 5) (get_price_precision 5) ∧
      (5 : ℚ) * (1 - 2 / 100) = (98 / 100) * 5 ∧
      (5 : ℚ) * (1 + 15 / 100) = (115 / 100) * 5 ∧
      ((5 : ℚ) ≤ 10 → get_price_precision 5 = 4) ∧
      ((10 : ℚ) < 5 → (5 : ℚ) ≤ 100 → get_price_precision 5 = 3) ∧
      ((100 : ℚ) < 5 → (5 : ℚ) ≤ 1000 → get_price_precision 5 = 2) ∧
      ((1000 : ℚ) < 5 → get_price_precision 5 = 1)) :=
  ⟨rfl, rfl, by decide, rfl,
    C7_protective_prices defaultConfig c7Broker "XUSDT" c7Fill 5 rfl rfl
      (by decide) rfl⟩

/-- Broker interaction in which the market buy itself raises, so no
position is opened. -/
def c3BrokerPre : Broker :=
  { c7Broker with market_order := Except.error "boom" }

/-- Broker interaction in which the market buy fills and the immediately
following fill-price re-fetch raises, leaving an open unprotected
position. -/
def c3BrokerPost : Broker :=
  { c7Broker with market_order := Except.ok 1, ticker2 := Except.error "boom" }

/-- C3 counterexample: a failure after the market order has filled is NOT
distinguishable from a pre-fill failure.  The two broker runs — one whose
market buy raises before any position exists, one whose market buy fills
and whose next call raises — return byte-identical failure dicts, while
only the second leaves an open position. -/
theorem C3_counterexample :
    place_long_trade defaultConfig c3BrokerPre "XUSDT" =
      place_long_trade defaultConfig c3BrokerPost "XUSDT" ∧
    place_long_trade defaultConfig c3BrokerPost "XUSDT" =
      PlaceResult.err "Error placing trade for XUSDT: boom" ∧
    market_order_filled defaultConfig c3BrokerPre = false ∧
    market_order_filled defaultConfig c3BrokerPost = true := by
  refine ⟨by decide, by decide, by decide, by decide⟩

/-- C3 (amended): every `place_long_trade` failure — post-fill failures
included — is returned as the same failure dict carrying only an error
message, and `execute_trade` treats all of them identically: the symbol is
registered in the retry list with `attempts = 1`, the ledger and active
map are untouched, and the resulting state does not depend on the error
text.  The unprotected position is logged and generically notified but
there is no distinct PartialExecution outcome. -/
theorem C3_amended_uniform_failure_handling (cfg : BotConfig) (b : Broker)
    (symbol msg : String) (now : ℤ) (st : BotState) (e : String)
    (_hfail : place_long_trade cfg b symbol = PlaceResult.err e) :
    execute_trade cfg now symbol msg (PlaceResult.err e) st =
      { st with retry_attempts :=
          dictInsert symbol { attempts := 1, last_attempt := now,
                              original_message := msg } st.retry_attempts } ∧
    (execute_trade cfg now symbol msg (PlaceResult.err e) st).ledger = st.ledger ∧
    ∀ e2 : String,
      execute_trade cfg now symbol msg (PlaceResult.err e) st =
        execute_trade cfg now symbol msg (PlaceResult.err e2) st :=
  ⟨rfl, rfl, fun _ => rfl⟩

/-- Witness for C3 (amended) at the post-fill failing broker and the empty
state. -/
theorem C3_amended_witness :
    place_long_trade defaultConfig c3BrokerPost "XUSDT" =
      PlaceResult.err "Error placing trade for XUSDT: boom" ∧
    (execute_trade defaultConfig 9 "XUSDT" "m"
        (PlaceResult.err "Error placing trade for XUSDT: boom")
        { ledger := [], active_trades := [], retry_attempts := [] } =
      { ledger := [], active_trades := [],
        retry_attempts :=
          dictInsert "XUSDT"
            { attempts := 1, last_attempt := 9, original_message := "m" } [] } ∧
      (execute_trade defaultConfig 9 "XUSDT" "m"
          (PlaceResult.err "Error placing trade for XUSDT: boom")
          { ledger := [], active_trades := [], retry_attempts := [] }).ledger = [] ∧
      ∀ e2 : String,
        execute_trade defaultConfig 9 "XUSDT" "m"
            (PlaceResult.err "Error placing trade for XUSDT: boom")
            { ledger := [], active_trades := [], retry_attempts := [] } =
          execute_trade defaultConfig 9 "XUSDT" "m" (PlaceResult.err e2)
            { ledger := [], active_trades := [], retry_attempts := [] }) :=
  ⟨by decide,
    C3_amended_uniform_failure_handling defaultConfig c3BrokerPost "XUSDT" "m" 9
      { ledger := [], active_trades := [], retry_attempts := [] } _ (by decide)⟩

/-- A flat-position close broker: the position lookup reports size 0. -/
def c5Broker : CloseBroker :=
  { position_info := Except.ok 0
    cancel_ok := true
    close_order := Except.ok 1
    ticker := Except.ok 1 }

/-- A state whose only ledger record for XUSDT is already CLOSED. -/
def c5State : BotState :=
  { ledger := [{ trade_id := "XUSDT_0", symbol := "XUSDT", action := "BUY",
                 status := "CLOSED", entry_time := "0", entry_price := 1,
                 quantity := 1, leverage := 3, original_message := "m" }]
    active_trades := []
    retry_attempts := [] }

/-- Witness for C5 at the flat broker and the already-closed ledger. -/
theorem C5_witness :
    c5Broker.position_info = Except.ok 0 ∧
    (fun _ : String => (Except.ok 0 : Except String ℚ)) "XUSDT" = Except.ok 0 ∧
    (∀ t ∈ c5State.ledger,
      ¬(t.symbol = "XUSDT" ∧ t.status = "ACTIVE" ∧ t.action = "BUY")) ∧
    (close_position_at_market c5Broker "MAX_HOLD_TIME" = Option.none ∧
      close_order_attempted c5Broker = false ∧
      update_trade_status_to_closed c5State.ledger "XUSDT"
        "TARGET_OR_STOPLOSS_HIT" "9" = (false, c5State.ledger) ∧
      (monitor_close_symbol defaultConfig 9 "XUSDT"
          { entry_time := 0, entry_price := 1, quantity := 1,
            stop_loss_price := 1, take_profit_price := 1,
            original_message := "m" } Option.none c5State).ledger = c5State.ledger ∧
      (reconcile_step (fun _ => Except.ok 0) "9" c5State "XUSDT").ledger =
        c5State.ledger) :=
  ⟨rfl, rfl, by decide,
    C5_double_close_idempotent c5Broker "MAX_HOLD_TIME" defaultConfig 9
      { entry_time := 0, entry_price := 1, quantity := 1, stop_loss_price := 1,
        take_profit_price := 1, original_message := "m" }
      c5State "XUSDT" "TARGET_OR_STOPLOSS_HIT" "9" (fun _ => Except.ok 0)
      rfl rfl (by decide)⟩

/-- C4 counterexample: with the lot rule stepSize = 0.7 (positive),
minQty = 1 and a small raw quantity, the sizer clamps up to minQty = 1 and
then snaps to round(1 / 0.7) × 0.7 = 0.7, returning a final quantity
strictly below minQty — the claimed `quantity ≥ minQty` fails. -/
theorem C4_counterexample :
    (0 : ℚ) < 7 / 10 ∧
    calculate_quantity defaultConfig (Except.ok 1000)
      (Except.ok (7 / 10, 1)) 100000 = some (7 / 10) ∧
    ¬ ((1 : ℚ) ≤ 7 / 10) := by
  refine ⟨by decide, by decide, by decide⟩

/-- C4 (amended): for a lot rule with stepSize > 0 whose minQty is itself a
whole multiple of stepSize (as real exchange LOT_SIZE filters are), and a
notional below the 5000 large-capital threshold (so the final snap is the
last operation), the quantity returned by `calculate_quantity` is an exact
integer multiple of stepSize and is at least minQty.  Without the
multiple-of-step hypothesis the minQty bound fails (see the
counterexample), and under the large-notional re-truncation the
multiple-of-step property itself fails. -/
theorem C4_amended_lot_rule (cfg : BotConfig) (bal price step minq q : ℚ)
    (k : ℕ) (hstep : 0 < step) (hmin : minq = (k : ℚ) * step)
    (hnot : min cfg.trade_amount (bal * (95 / 100)) < 5000)
    (hq : calculate_quantity cfg (Except.ok bal) (Except.ok (step, minq))
      price = some q) :
    minq ≤ q ∧ ∃ m : ℤ, q = (m : ℚ) * step := by
  have h5 : ¬ (5000 ≤ min cfg.trade_amount (bal * (95 / 100))) := not_le.mpr hnot
  unfold calculate_quantity at hq
  dsimp only at hq
  rw [if_pos hstep] at hq
  simp only [if_neg h5] at hq
  rw [Option.some_inj] at hq
  subst hq
  set q1 : ℚ :=
    if 1 ≤ step then
      (pyInt (min cfg.trade_amount (bal * (95 / 100)) * cfg.leverage / price) : ℚ)
    else
      pyRoundTo (min cfg.trade_amount (bal * (95 / 100)) * cfg.leverage / price)
        (quantityPrecision step) with hq1
  set q2 : ℚ := if q1 < minq then minq else q1 with hq2
  have hq2min : minq ≤ q2 := by
    rw [hq2]
    split_ifs with h
    · exact le_refl _
    · exact le_of_not_lt h
  have hdiv : (k : ℚ) ≤ q2 / step := by
    rw [le_div_iff₀ hstep]
    rw [hmin] at hq2min
    exact hq2min
  have hk : (k : ℤ) ≤ pyRound (q2 / step) := by
    apply int_le_pyRound
    push_cast
    exact hdiv
  constructor
  · rw [hmin]
    have : ((k : ℤ) : ℚ) ≤ (pyRound (q2 / step) : ℚ) := by exact_mod_cast hk
    calc (k : ℚ) * step ≤ (pyRound (q2 / step) : ℚ) * step := by
          apply mul_le_mul_of_nonneg_right _ hstep.le
          exact_mod_cast this
      _ = _ := rfl
  · exact ⟨pyRound (q2 / step), rfl⟩

/-- Witness for C4 (amended): stepSize 1, minQty 1, notional 950, price 10
gives quantity 285, a multiple of 1 and at least 1. -/
theorem C4_amended_witness :
    (0 : ℚ) < 1 ∧ (1 : ℚ) = ((1 : ℕ) : ℚ) * 1 ∧
    min defaultConfig.trade_amount ((1000 : ℚ) * (95 / 100)) < 5000 ∧
    calculate_quantity defaultConfig (Except.ok 1000) (Except.ok (1, 1)) 10 =
      some 285 ∧
    ((1 : ℚ) ≤ 285 ∧ ∃ m : ℤ, (285 : ℚ) = (m : ℚ) * 1) :=
  ⟨by decide, by decide, by decide, by decide,
    C4_amended_lot_rule defaultConfig 1000 10 1 1 285 1 (by decide) (by decide)
      (by decide) (by decide)⟩

/-- The configuration with TRADE_AMOUNT raised to 5000, putting every
attempt with sufficient balance into the large-notional branch. -/
def largeConfig : BotConfig :=
  { defaultConfig with trade_amount := 5000 }

/-- C8 counterexample: with notional 5000 (at least the 5000 threshold), a
degenerate lot rule stepSize = 0, minQty = 0.5 and a high price, the
truncated integer quantity 0 is clamped up to the fractional minQty 0.5
and the snap is skipped, so the sizer returns 0.5 — not an integer. -/
theorem C8_counterexample :
    (5000 : ℚ) ≤ min largeConfig.trade_amount ((10000 : ℚ) * (95 / 100)) ∧
    calculate_quantity largeConfig (Except.ok 10000)
      (Except.ok (0, 1 / 2)) 100000 = some (1 / 2) ∧
    ((1 : ℚ) / 2).den ≠ 1 := by
  refine ⟨by decide, by decide, by decide⟩

/-- C8 (amended): whenever the notional `min(configuredAmount,
0.95 × balance)` is at least 5000 and the lot rule is non-degenerate —
stepSize > 0, or minQty itself an integer (in particular the (0, 0)
default used when the LOT_SIZE filter is absent) — the integer truncation
of the large-notional branch survives the minQty clamp and the step-size
snap: the returned quantity has denominator 1, i.e. is an integer. -/
theorem C8_amended_large_notional (cfg : BotConfig) (bal step minq price q : ℚ)
    (hbig : 5000 ≤ min cfg.trade_amount (bal * (95 / 100)))
    (hrule : 0 < step ∨ minq.den = 1)
    (hq : calculate_quantity cfg (Except.ok bal) (Except.ok (step, minq))
      price = some q) :
    q.den = 1 := by
  unfold calculate_quantity at hq
  dsimp only at hq
  simp only [if_pos hbig] at hq
  by_cases hstep : 0 < step
  · rw [if_pos hstep] at hq
    rw [Option.some_inj] at hq
    rw [← hq]
    exact Rat.den_intCast _
  · have hden : minq.den = 1 := hrule.resolve_left hstep
    rw [if_neg hstep] at hq
    rw [Option.some_inj] at hq
    rw [← hq]
    split_ifs
    · exact hden
    · exact Rat.den_intCast _

/-- Witness for C8 (amended): notional 5000, stepSize 1, minQty 1,
price 100 give quantity 150, an integer. -/
theorem C8_amended_witness :
    (5000 : ℚ) ≤ min largeConfig.trade_amount ((10000 : ℚ) * (95 / 100)) ∧
    ((0 : ℚ) < 1 ∨ ((1 : ℚ)).den = 1) ∧
    calculate_quantity largeConfig (Except.ok 10000) (Except.ok (1, 1)) 100 =
      some 150 ∧
    ((150 : ℚ)).den = 1 :=
  ⟨by decide, Or.inl (by decide), by decide,
    C8_amended_large_notional largeConfig 10000 1 1 100 150 (by decide)
      (Or.inl (by decide)) (by decide)⟩

/-- C2: once `now − lastAttemptTime` reaches `maxRetryMinutes` (in
seconds, `60 × maxRetryMinutes`), a retry-scheduler cycle removes the
symbol from `pendingRetries` with no attempt made — for every attempt
count, since the expiry test never reads `attempts` — no ledger record is
written for it in that cycle, and a symbol absent from the pending map is
never re-entered by any later scheduler cycle.  The pending map, a Python
dict, has pairwise-distinct keys. -/
theorem C2_retry_expiry_removes (cfg : BotConfig) (now : ℤ)
    (attempt : String → String → PlaceResult) (st : BotState)
    (symbol : String) (info : RetryInfo)
    (hmem : (symbol, info) ∈ st.retry_attempts)
    (hnodup : (st.retry_attempts.map Prod.fst).Nodup)
    (hexp : (cfg.max_retry_minutes : ℤ) * 60 ≤ now - info.last_attempt) :
    symbol ∉ ((retry_cycle cfg now attempt st).retry_attempts.map Prod.fst) ∧
    (∀ t ∈ (retry_cycle cfg now attempt st).ledger,
      t ∈ st.ledger ∨ t.symbol ≠ symbol) ∧
    (∀ (now2 : ℤ) (attempt2 : String → String → PlaceResult) (st2 : BotState),
      symbol ∉ (st2.retry_attempts.map Prod.fst) →
      symbol ∉ ((retry_cycle cfg now2 attempt2 st2).retry_attempts.map Prod.fst)) := by
  have hexpB : retryExpired cfg now info = true := by
    unfold retryExpired
    exact decide_eq_true hexp
  refine ⟨?_, ?_, ?_⟩
  · intro hcontra
    rw [List.mem_map] at hcontra
    obtain ⟨x, hx, hxs⟩ := hcontra
    simp only [retry_cycle] at hx
    rw [List.mem_filterMap] at hx
    obtain ⟨⟨s, i⟩, hp, hfp⟩ := hx
    by_cases he : retryExpired cfg now i
    · rw [if_pos he] at hfp
      exact Option.noConfusion hfp
    · rw [if_neg he] at hfp
      rcases hatt : attempt s i.original_message with t2 | e2 <;>
        rw [hatt] at hfp <;> dsimp only at hfp
      · exact Option.noConfusion hfp
      · rw [Option.some_inj] at hfp
        rw [← hfp] at hxs
        dsimp only at hxs
        subst hxs
        have : i = info := keyUnique hnodup hp hmem
        subst this
        exact he hexpB
  · intro t ht
    simp only [retry_cycle] at ht
    rw [List.mem_append] at ht
    rcases ht with ht | ht
    · exact Or.inl ht
    · right
      rw [List.mem_filterMap] at ht
      obtain ⟨⟨s, i⟩, hp, hfp⟩ := ht
      by_cases he : retryExpired cfg now i
      · rw [if_pos he] at hfp
        exact Option.noConfusion hfp
      · rw [if_neg he] at hfp
        rcases hatt : attempt s i.original_message with t2 | e2 <;>
          rw [hatt] at hfp <;> dsimp only at hfp
        · rw [Option.some_inj] at hfp
          rw [← hfp, makeRetryTrade_symbol]
          intro hss
          subst hss
          have : i = info := keyUnique hnodup hp hmem
          subst this
          exact he hexpB
        · exact Option.noConfusion hfp
  · intro now2 attempt2 st2 hnot hcontra
    apply hnot
    rw [List.mem_map] at hcontra ⊢
    obtain ⟨x, hx, hxs⟩ := hcontra
    simp only [retry_cycle] at hx
    rw [List.mem_filterMap] at hx
    obtain ⟨⟨s, i⟩, hp, hfp⟩ := hx
    by_cases he : retryExpired cfg now2 i
    · rw [if_pos he] at hfp
      exact Option.noConfusion hfp
    · rw [if_neg he] at hfp
      rcases hatt : attempt2 s i.original_message with t2 | e2 <;>
        rw [hatt] at hfp <;> dsimp only at hfp
      · exact Option.noConfusion hfp
      · rw [Option.some_inj] at hfp
        rw [← hfp] at hxs
        dsimp only at hxs
        exact ⟨(s, i), hp, hxs⟩

/-- A state with one pending retry for XUSDT, last attempted at instant 0
with 7 prior attempts. -/
def c2State : BotState :=
  { ledger := []
    active_trades := []
    retry_attempts :=
      [("XUSDT", { attempts := 7, last_attempt := 0, original_message := "m" })] }

/-- Witness for C2: at instant 86400 (= 1440 minutes after the last
attempt) the pending XUSDT retry is expired and removed. -/
theorem C2_witness :
    (("XUSDT", ({ attempts := 7, last_attempt := 0, original_message := "m" } :
        RetryInfo)) ∈ c2State.retry_attempts) ∧
    (c2State.retry_attempts.map Prod.fst).Nodup ∧
    ((defaultConfig.max_retry_minutes : ℤ) * 60 ≤ 86400 - 0) ∧
    ("XUSDT" ∉
      ((retry_cycle defaultConfig 86400 (fun _ _ => PlaceResult.err "e")
          c2State).retry_attempts.map Prod.fst) ∧
      (∀ t ∈ (retry_cycle defaultConfig 86400 (fun _ _ => PlaceResult.err "e")
          c2State).ledger, t ∈ c2State.ledger ∨ t.symbol ≠ "XUSDT") ∧
      (∀ (now2 : ℤ) (attempt2 : String → String → PlaceResult) (st2 : BotState),
        "XUSDT" ∉ (st2.retry_attempts.map Prod.fst) →
        "XUSDT" ∉
          ((retry_cycle defaultConfig now2 attempt2 st2).retry_attempts.map
            Prod.fst))) :=
  ⟨by decide, by decide, by decide,
    C2_retry_expiry_removes defaultConfig 86400 (fun _ _ => PlaceResult.err "e")
      c2State "XUSDT" { attempts := 7, last_attempt := 0, original_message := "m" }
      (by decide) (by decide) (by decide)⟩

/-- The trade returned for the retried AUSDT entry in the C1 trace. -/
def c1FillA : FilledTrade :=
  { entry_price := 1, quantity := 100, stop_loss_price := 98 / 100,
    take_profit_price := 115 / 100, stop_loss_order_id := 11,
    take_profit_order_id := 12 }

/-- The trade returned for the direct BUSDT entry in the C1 trace. -/
def c1FillB : FilledTrade :=
  { entry_price := 2, quantity := 50, stop_loss_price := 49 / 25,
    take_profit_price := 23 / 10, stop_loss_order_id := 21,
    take_profit_order_id := 22 }

/-- A reachable run: the AUSDT signal fails at instant 1000 and is queued
for retry, the BUSDT signal succeeds at instant 1010 (the ledger had no
ACTIVE record yet), and the retry-scheduler cycle at instant 1070 —
which performs no `has_active_trade` check — re-places AUSDT successfully
while BUSDT is still ACTIVE. -/
def c1State : BotState :=
  retry_cycle defaultConfig 1070 (fun _ _ => PlaceResult.ok c1FillA)
    (handleSignal defaultConfig 1010 "BUSDT" "mB" (PlaceResult.ok c1FillB)
      (handleSignal defaultConfig 1000 "AUSDT" "mA" (PlaceResult.err "down")
        { ledger := [], active_trades := [], retry_attempts := [] }))

/-- C1 counterexample: the at-most-one-ACTIVE invariant does not hold over
all entry paths.  The `c1State` run is reachable from the empty start and
its ledger holds two ACTIVE records (BUSDT and the retried AUSDT), because
the retry scheduler places entries without consulting `has_active_trade`. -/
theorem C1_counterexample :
    Reachable defaultConfig c1State ∧
    (c1State.ledger.filter fun t => t.status == "ACTIVE").length = 2 ∧
    ¬ ((c1State.ledger.filter fun t => t.status == "ACTIVE").length ≤ 1) :=
  ⟨.retry 1070 _ (.signal 1010 "BUSDT" "mB" (.ok c1FillB)
      (.signal 1000 "AUSDT" "mA" (.err "down") .init)),
    by decide, by decide⟩

/-- C1 (amended): the `handleSignal` entry path itself keeps the invariant:
whenever any ledger record is ACTIVE, a `handleSignal` invocation for any
symbol is a no-op — the state is returned unchanged, so no entry order
result is consumed, no ledger record is written and the symbol is not
added to `pendingRetries`.  The Retry Scheduler entry path carries no such
guard, so the property does not extend to all entry paths. -/
theorem C1_amended_handleSignal_noop (cfg : BotConfig) (now : ℤ)
    (symbol msg : String) (res : PlaceResult) (st : BotState)
    (h : has_active_trade st.ledger = true) :
    handleSignal cfg now symbol msg res st = st := by
  unfold handleSignal
  rw [h]
  rfl

/-- A state whose ledger holds one ACTIVE record. -/
def c1ActiveState : BotState :=
  { ledger := [makeBuyTrade defaultConfig 0 "XUSDT" "m" c1FillB]
    active_trades := []
    retry_attempts := [] }

/-- Witness for C1 (amended): with an ACTIVE XUSDT record in the ledger, a
YUSDT signal leaves the state untouched. -/
theorem C1_amended_witness :
    has_active_trade c1ActiveState.ledger = true ∧
    handleSignal defaultConfig 5 "YUSDT" "m2" (PlaceResult.err "e")
      c1ActiveState = c1ActiveState :=
  ⟨by decide,
    C1_amended_handleSignal_noop defaultConfig 5 "YUSDT" "m2"
      (PlaceResult.err "e") c1ActiveState (by decide)⟩

end TelegramListing
